import Mathlib

/-!
Verification of the esp_now_rx_freertos receiver firmware (src/main.rs).

The development shallowly embeds the program: actuator I/O and delays become
an explicit command trace, the two atomics plus the doorbell flag become a
Mailbox record, the RTC-retained IS_AWAKE boolean and the boot sequence of
main() become a BootState record transformed by pure functions, and the byte
decode performed by ptr::read_unaligned on the packed little-endian HubData
struct becomes an arithmetic decode on byte lists.
-/

namespace EspNowRx

/-- Value of the esp-idf constant esp_sleep_wakeup_cause_t_ESP_SLEEP_WAKEUP_GPIO;
the wake cause reported when deep sleep ended because of the GPIO wake source. -/
def ESP_SLEEP_WAKEUP_GPIO : Nat := 7

/-- const TOPIC_ID_KETTLE_THERMO: i32 = 1 (main.rs line 16). -/
def TOPIC_ID_KETTLE_THERMO : Int := 1

/-- const TOPIC_ID_SINK_THERMO: i32 = 2 (main.rs line 17). -/
def TOPIC_ID_SINK_THERMO : Int := 2

/-- One observable actuator action of the dispatcher: driving one of the three
output pins (thermo_1_led on gpio32 is LED-A, thermo_2_led on gpio12 is LED-B,
buzzer on gpio13) to a level, or a FreeRtos::delay_ms call. -/
inductive Cmd where
  | setBuzzer : Bool → Cmd
  | setLedA : Bool → Cmd
  | setLedB : Bool → Cmd
  | delayMs : Nat → Cmd
deriving DecidableEq, BEq

/-- Whether a command drives an actuator output pin (as opposed to a delay). -/
def Cmd.isActuatorOut : Cmd → Bool
  | Cmd.setBuzzer _ => true
  | Cmd.setLedA _ => true
  | Cmd.setLedB _ => true
  | Cmd.delayMs _ => false

/-- Trace of sound_buzzer (main.rs lines 74-78): high, wait 500 ms, low. -/
def sound_buzzer : List Cmd :=
  [Cmd.setBuzzer true, Cmd.delayMs 500, Cmd.setBuzzer false]

/-- Trace of flash_led (main.rs lines 80-84) applied to a given LED pin:
high, wait 1000 ms, low. -/
def flash_led (led : Bool → Cmd) : List Cmd :=
  [led true, Cmd.delayMs 1000, led false]

/-- The match on topic_id in the main loop (main.rs lines 182-206), as the list
of actuator commands it issues for one delivered message. -/
def dispatch (topic_id measurement : Int) : List Cmd :=
  if topic_id = TOPIC_ID_KETTLE_THERMO then
    if measurement > 50 then
      sound_buzzer ++ flash_led Cmd.setLedA
    else
      [Cmd.setLedA false, Cmd.setBuzzer false]
  else if topic_id = TOPIC_ID_SINK_THERMO then
    if measurement < 32 then
      sound_buzzer ++ flash_led Cmd.setLedB
    else
      [Cmd.setLedB false, Cmd.setBuzzer false]
  else
    [Cmd.setLedA false, Cmd.setLedB false, Cmd.setBuzzer false]

/-- The three static atomics RECEIVED_TOPIC, RECEIVED_MEASUREMENT, DATA_READY
(main.rs lines 38-40), the single-slot mailbox shared by the receive callback
and the main loop. -/
structure Mailbox where
  received_topic : Int
  received_measurement : Int
  data_ready : Bool
deriving DecidableEq

/-- Initial mailbox contents (main.rs lines 38-40): topic -1, measurement 0,
doorbell clear. -/
def initMailbox : Mailbox := ⟨-1, 0, false⟩

/-- The three stores performed by the receive callback on a successful decode
(main.rs lines 60-62): overwrite topic and measurement, then set the doorbell. -/
def publish (topic measurement : Int) (_m : Mailbox) : Mailbox :=
  { received_topic := topic, received_measurement := measurement, data_ready := true }

/-- The mailbox effect of one main-loop iteration viewed as a take operation:
if the doorbell is set, return the pending pair and clear the doorbell,
otherwise return nothing (main.rs lines 176-178 and 208). -/
def try_take (m : Mailbox) : Option (Int × Int) × Mailbox :=
  if m.data_ready = true then
    (some (m.received_topic, m.received_measurement), { m with data_ready := false })
  else
    (none, m)

/-- The packed wire struct HubData (main.rs lines 29-34): two i32 fields,
topic_id then measurement, eight bytes total, no padding. -/
structure HubData where
  topic_id : Int
  measurement : Int
deriving DecidableEq

/-- size_of::(HubData) = 8: two packed 4-byte fields. -/
def size_of_HubData : Nat := 8

/-- Two's-complement reading of four little-endian bytes as an i32, the effect
of ptr::read_unaligned on one field of the packed struct on this
little-endian target. -/
def decode_i32 (b0 b1 b2 b3 : Nat) : Int :=
  if b0 + 256 * b1 + 65536 * b2 + 16777216 * b3 < 2147483648 then
    ((b0 + 256 * b1 + 65536 * b2 + 16777216 * b3 : Nat) : Int)
  else
    ((b0 + 256 * b1 + 65536 * b2 + 16777216 * b3 : Nat) : Int) - 4294967296

/-- ptr::read_unaligned(data as *const HubData) (main.rs line 54): bytes 0-3
are topic_id, bytes 4-7 are measurement, both little-endian i32. -/
def read_unaligned (b : List Nat) : HubData :=
  { topic_id := decode_i32 (b.getD 0 0) (b.getD 1 0) (b.getD 2 0) (b.getD 3 0),
    measurement := decode_i32 (b.getD 4 0) (b.getD 5 0) (b.getD 6 0) (b.getD 7 0) }

/-- The i32 written back as its four little-endian bytes (two's complement). -/
def encode_i32 (v : Int) : List Nat :=
  [((v % 4294967296).toNat) % 256,
   ((v % 4294967296).toNat) / 256 % 256,
   ((v % 4294967296).toNat) / 65536 % 256,
   ((v % 4294967296).toNat) / 16777216 % 256]

/-- Wire encoding of a HubData value: topic_id bytes then measurement bytes. -/
def encode (h : HubData) : List Nat :=
  encode_i32 h.topic_id ++ encode_i32 h.measurement

/-- The ESP-NOW receive callback on_receive (main.rs lines 48-64) as a mailbox
transformer on the raw byte buffer: decode and publish when the length is
exactly size_of HubData, otherwise leave every field untouched. -/
def on_receive (data : List Nat) (m : Mailbox) : Mailbox :=
  if data.length = size_of_HubData then
    publish (read_unaligned data).topic_id (read_unaligned data).measurement m
  else
    m

/-- Observable events of one main-loop iteration: the two atomic loads of the
pending message, the store clearing the doorbell, and the issued commands. -/
inductive Ev where
  | loadTopic : Ev
  | loadMeasurement : Ev
  | clearReady : Ev
  | act : Cmd → Ev
deriving DecidableEq, BEq

/-- Whether an event drives an actuator output pin. -/
def Ev.isActuatorOut : Ev → Bool
  | Ev.act c => c.isActuatorOut
  | _ => false

/-- Event trace of one iteration of the main loop (main.rs lines 175-212):
when DATA_READY is observed true, load topic, load measurement, run the
dispatch commands, then clear DATA_READY; in every iteration finish with the
10 ms poll delay. -/
def loop_iter_trace (m : Mailbox) : List Ev :=
  (if m.data_ready = true then
    [Ev.loadTopic, Ev.loadMeasurement]
      ++ (dispatch m.received_topic m.received_measurement).map Ev.act
      ++ [Ev.clearReady]
  else
    []) ++ [Ev.act (Cmd.delayMs 10)]

/-- The ordering property claimed of the consumer: in the iteration trace the
doorbell clear comes before the first actuator command (vacuously true when
either is absent). -/
def clear_precedes_policy (l : List Ev) : Bool :=
  match l.findIdx? (fun e => e == Ev.clearReady),
        l.findIdx? (fun e => e.isActuatorOut) with
  | some i, some j => decide (i < j)
  | _, _ => true

/-- Every actuator command of the trace comes before the doorbell clear: no
event after the first clearReady drives an output pin. -/
def actuators_precede_clear (l : List Ev) : Bool :=
  match l.findIdx? (fun e => e == Ev.clearReady) with
  | none => true
  | some i => (l.drop (i + 1)).all (fun e => !e.isActuatorOut)

/-- The three output pins (main.rs lines 117-119): thermo_1_led is LED-A,
thermo_2_led is LED-B, plus the buzzer. -/
structure Pins where
  thermo_1_led : Bool
  thermo_2_led : Bool
  buzzer : Bool
deriving DecidableEq

/-- All outputs start LOW (main.rs lines 122-124). -/
def Pins.initLow : Pins := ⟨false, false, false⟩

/-- Effect of one command on the pin levels; delays leave them unchanged. -/
def applyCmd (p : Pins) : Cmd → Pins
  | Cmd.setBuzzer b => { p with buzzer := b }
  | Cmd.setLedA b => { p with thermo_1_led := b }
  | Cmd.setLedB b => { p with thermo_2_led := b }
  | Cmd.delayMs _ => p

/-- All intermediate pin states reached while a command list executes,
including the starting state and the final state. -/
def run_states (p : Pins) : List Cmd → List Pins
  | [] => [p]
  | c :: cs => p :: run_states (applyCmd p c) cs

/-- Number of output pins currently driven high. -/
def highCount (p : Pins) : Nat :=
  (if p.thermo_1_led then 1 else 0) + (if p.thermo_2_led then 1 else 0)
    + (if p.buzzer then 1 else 0)

/-- State visible to one iteration of the main polling loop: the mailbox, the
output pins, and whether esp_deep_sleep_start has been reached. -/
structure LoopState where
  mailbox : Mailbox
  pins : Pins
  halted : Bool
deriving DecidableEq

/-- One iteration of the main loop (main.rs lines 175-212) as a state
transformer. The boolean argument is the level of the external trigger GPIO
during the iteration; the loop body never reads that pin and has no call to
go_to_sleep, which the definition reflects by ignoring the argument. -/
def loop_step (_trigger_high : Bool) (s : LoopState) : LoopState :=
  if s.halted = true then
    s
  else if s.mailbox.data_ready = true then
    { s with
        pins := (dispatch s.mailbox.received_topic s.mailbox.received_measurement).foldl
          applyCmd s.pins,
        mailbox := { s.mailbox with data_ready := false } }
  else
    s

/-- Boot-scoped state of main(): the RTC-retained IS_AWAKE flag (main.rs line
45), whether esp_deep_sleep_start was reached, whether the wake-source arming
block (main.rs lines 149-158) has executed in this boot, and whether the
ESP-NOW receive callback was registered in this boot. -/
structure BootState where
  is_awake : Bool
  halted : Bool
  wake_armed : Bool
  cb_registered : Bool
deriving DecidableEq

/-- State at entry of a boot whose retained IS_AWAKE flag is the given value:
nothing halted, nothing armed, no callback registered yet. -/
def boot_start (flag : Bool) : BootState := ⟨flag, false, false, false⟩

/-- go_to_sleep (main.rs lines 66-72): clear IS_AWAKE, then
esp_deep_sleep_start, which does not return. -/
def go_to_sleep (s : BootState) : BootState :=
  { s with is_awake := false, halted := true }

/-- The wake-cause decision at the top of main (main.rs lines 99-114): on a
GPIO-cause boot either go to sleep (flag was set) or set the flag (flag was
clear); on any other cause clear the flag. -/
def boot_decide (wakeup_reason : Nat) (s : BootState) : BootState :=
  if wakeup_reason = ESP_SLEEP_WAKEUP_GPIO then
    if s.is_awake = true then
      go_to_sleep s
    else
      { s with is_awake := true }
  else
    { s with is_awake := false }

/-- Remainder of main after the wake-cause decision (main.rs lines 116-172):
when not halted, run the wake-source arming block, then initialise ESP-NOW;
on success register the receive callback exactly when IS_AWAKE is set, on
failure return without registering. -/
def arm_and_listen (esp_now_ok : Bool) (s1 : BootState) : BootState :=
  if s1.halted = true then
    s1
  else if esp_now_ok = true then
    if s1.is_awake = true then
      { s1 with wake_armed := true, cb_registered := true }
    else
      { s1 with wake_armed := true }
  else
    { s1 with wake_armed := true }

/-- One whole boot of main() up to entering the polling loop (or halting):
the wake-cause decision followed by arming and listener registration. -/
def boot_flow (wakeup_reason : Nat) (esp_now_ok : Bool) (s : BootState) : BootState :=
  arm_and_listen esp_now_ok (boot_decide wakeup_reason s)

/-- The three boot outcomes named by the specification. -/
inductive BootAction where
  | ColdBoot : BootAction
  | ResumeAndArm : BootAction
  | EnterSleep : BootAction
deriving DecidableEq

/-- Classification of the state produced by the wake-cause decision: a halt is
EnterSleep, continuing with the flag set is ResumeAndArm, continuing with the
flag clear is ColdBoot. -/
def action_of (s : BootState) : BootAction :=
  if s.halted = true then
    BootAction.EnterSleep
  else if s.is_awake = true then
    BootAction.ResumeAndArm
  else
    BootAction.ColdBoot

/-- Modelled from the spec: decide_boot_action as the specification states it,
returning the boot outcome and the value the PersistentWakeFlag ends with. -/
def decide_boot_action (cause : Nat) (flag : Bool) : BootAction × Bool :=
  if cause ≠ ESP_SLEEP_WAKEUP_GPIO then
    (BootAction.ColdBoot, false)
  else if flag = false then
    (BootAction.ResumeAndArm, true)
  else
    (BootAction.EnterSleep, false)

/-- Modelled from the spec: the per-message actuator effect exactly as claim C5
words it, with literal topic ids, thresholds and pulse shapes. -/
def dispatch_claim (topic_id measurement : Int) : List Cmd :=
  if topic_id = 1 then
    if measurement > 50 then
      [Cmd.setBuzzer true, Cmd.delayMs 500, Cmd.setBuzzer false,
       Cmd.setLedA true, Cmd.delayMs 1000, Cmd.setLedA false]
    else
      [Cmd.setLedA false, Cmd.setBuzzer false]
  else if topic_id = 2 then
    if measurement < 32 then
      [Cmd.setBuzzer true, Cmd.delayMs 500, Cmd.setBuzzer false,
       Cmd.setLedB true, Cmd.delayMs 1000, Cmd.setLedB false]
    else
      [Cmd.setLedB false, Cmd.setBuzzer false]
  else
    [Cmd.setLedA false, Cmd.setLedB false, Cmd.setBuzzer false]

/-- C2 (code bug): on the boot whose wake cause is the GPIO trigger and whose
retained flag is true, main halts into deep sleep (via go_to_sleep at line
105) with the flag cleared, but the wake-source arming block of lines 149-158
has not executed in that boot, contradicting the requirement that the arming
step precede every sleep entry. -/
theorem C2_halt_without_arming :
    (boot_flow ESP_SLEEP_WAKEUP_GPIO true (boot_start true)).halted = true ∧
    (boot_flow ESP_SLEEP_WAKEUP_GPIO true (boot_start true)).wake_armed = false ∧
    (boot_flow ESP_SLEEP_WAKEUP_GPIO true (boot_start true)).is_awake = false := by
  decide

/-- C3: the boot decision is exactly the function of (wake cause, flag) the
claim states: a non-trigger cause clears the flag and continues as a cold
boot, a trigger cause with the flag clear sets the flag, resumes and registers
the listener, a trigger cause with the flag set enters sleep leaving the flag
false, and the trigger-cause boot that follows such a sleep behaves exactly
like one starting from a clear flag. -/
theorem C3_boot_decision (cause : Nat) (flag ok : Bool) :
    (action_of (boot_decide cause (boot_start flag)),
        (boot_decide cause (boot_start flag)).is_awake) = decide_boot_action cause flag
    ∧ (boot_flow ESP_SLEEP_WAKEUP_GPIO true (boot_start false)).cb_registered = true
    ∧ (boot_flow ESP_SLEEP_WAKEUP_GPIO true (boot_start false)).halted = false
    ∧ boot_flow ESP_SLEEP_WAKEUP_GPIO ok
        (boot_start (boot_decide ESP_SLEEP_WAKEUP_GPIO (boot_start true)).is_awake)
        = boot_flow ESP_SLEEP_WAKEUP_GPIO ok (boot_start false) := by
  refine ⟨?_, by decide, by decide, ?_⟩
  · by_cases h : cause = ESP_SLEEP_WAKEUP_GPIO <;> cases flag <;>
      simp [boot_decide, boot_start, action_of, decide_boot_action, go_to_sleep, h]
  · cases ok <;> decide

/-- C5: the dispatcher acts on a delivered message exactly as the claim
describes: topic 1 above 50 pulses buzzer (500 ms) then LED-A (1000 ms),
topic 1 otherwise forces LED-A and buzzer off, topic 2 below 32 pulses buzzer
then LED-B, topic 2 otherwise forces LED-B and buzzer off, and any other
topic forces all three actuators off. -/
theorem C5_dispatch_policy (topic_id measurement : Int) :
    dispatch topic_id measurement = dispatch_claim topic_id measurement := by
  simp only [dispatch, dispatch_claim, TOPIC_ID_KETTLE_THERMO, TOPIC_ID_SINK_THERMO,
    sound_buzzer, flash_led]
  split_ifs <;> decide

/-- C6: publishing M1 then M2 with no intervening take makes the next take
return exactly M2, and a further take with no intervening publish returns
nothing; M1 is never observed. -/
theorem C6_overwrite_and_drain (t1 m1 t2 m2 : Int) (s : Mailbox) :
    (try_take (publish t2 m2 (publish t1 m1 s))).1 = some (t2, m2) ∧
    (try_take (try_take (publish t2 m2 (publish t1 m1 s))).2).1 = none := by
  simp [publish, try_take]

/-- C7: the receive handler publishes the decoded message exactly when the
buffer length is 8; any other length leaves all three mailbox fields
unchanged, with no error surfaced. -/
theorem C7_decode_gate (b : List Nat) (s : Mailbox) :
    (b.length = 8 →
        on_receive b s
          = publish (read_unaligned b).topic_id (read_unaligned b).measurement s) ∧
    (b.length ≠ 8 → on_receive b s = s) := by
  constructor
  · intro h
    simp [on_receive, size_of_HubData, h]
  · intro h
    simp [on_receive, size_of_HubData, h]

/-- Closed instance of C7 with the length hypothesis discharged on concrete
buffers: a 9-byte frame is dropped leaving the mailbox unchanged, and an
8-byte frame is decoded and published. -/
theorem C7_decode_gate_witness :
    on_receive [0, 1, 2, 3, 4, 5, 6, 7, 8] initMailbox = initMailbox :=
  (C7_decode_gate [0, 1, 2, 3, 4, 5, 6, 7, 8] initMailbox).2 (by decide)

/-- C8: the receive callback is never registered on a boot whose decision was
ColdBoot, and is registered only when the decision was ResumeAndArm. -/
theorem C8_listener_gating (cause : Nat) (flag ok : Bool) :
    (action_of (boot_decide cause (boot_start flag)) = BootAction.ColdBoot →
        (boot_flow cause ok (boot_start flag)).cb_registered = false) ∧
    ((boot_flow cause ok (boot_start flag)).cb_registered = true →
        action_of (boot_decide cause (boot_start flag)) = BootAction.ResumeAndArm) := by
  by_cases h : cause = ESP_SLEEP_WAKEUP_GPIO <;> cases flag <;> cases ok <;>
    simp [boot_flow, boot_decide, boot_start, arm_and_listen, action_of, go_to_sleep, h]

/-- Closed instance of C8 at a non-trigger wake cause with the flag stale-true:
the decision is ColdBoot and the callback is not registered. -/
theorem C8_listener_gating_witness :
    (boot_flow 0 true (boot_start true)).cb_registered = false :=
  (C8_listener_gating 0 true true).1 (by decide)

/-- C1 is false as stated: at the concrete mailbox state (topic 1,
measurement 60, doorbell set) the iteration trace runs the buzzer and LED
commands first and clears the doorbell only afterwards, so the clear does not
precede the threshold policy and actuator commands. -/
theorem C1_counterexample :
    clear_precedes_policy (loop_iter_trace ⟨1, 60, true⟩) = false := by
  decide

/-- C1 amended: in every loop iteration in which the doorbell was observed
true, the consumer first loads the pending topic and measurement and clears
the doorbell exactly once in that same iteration, but the clear happens after
the threshold policy and after every actuator command, not before them. -/
theorem C1_clear_after_policy (m : Mailbox) (h : m.data_ready = true) :
    (loop_iter_trace m).count Ev.clearReady = 1 ∧
    (loop_iter_trace m).take 2 = [Ev.loadTopic, Ev.loadMeasurement] ∧
    actuators_precede_clear (loop_iter_trace m) = true := by
  simp only [loop_iter_trace, h, if_pos]
  unfold dispatch
  split_ifs <;> decide

/-- Closed instance of C1 amended at the state (topic 2, measurement 10,
doorbell set). -/
theorem C1_clear_after_policy_witness :
    (loop_iter_trace ⟨2, 10, true⟩).count Ev.clearReady = 1 ∧
    (loop_iter_trace ⟨2, 10, true⟩).take 2 = [Ev.loadTopic, Ev.loadMeasurement] ∧
    actuators_precede_clear (loop_iter_trace ⟨2, 10, true⟩) = true :=
  C1_clear_after_policy ⟨2, 10, true⟩ rfl

theorem loop_step_halted (trig : Bool) (s : LoopState) :
    (loop_step trig s).halted = s.halted := by
  unfold loop_step
  split_ifs <;> rfl

/-- C4 is false as stated: no step of the running main loop enters deep sleep,
even one taken while the external trigger line is high — there is no loop
state from which the step halts the process. -/
theorem C4_counterexample :
    ¬ ∃ s : LoopState, s.halted = false ∧ (loop_step true s).halted = true := by
  rintro ⟨s, h0, h1⟩
  rw [loop_step_halted, h0] at h1
  exact Bool.false_ne_true h1

/-- C4 amended: a trigger observed at runtime does not cause a transition to
SLEEPING: any number of main-loop iterations, whatever the trigger level,
leaves the halted flag unchanged, so within a boot the armed loop runs
forever and deep sleep is entered only on the boot-decision path of a later
trigger-cause boot. -/
theorem C4_loop_never_sleeps (trig : Bool) (n : Nat) (s : LoopState) :
    ((loop_step trig)^[n] s).halted = s.halted := by
  induction n generalizing s with
  | zero => rfl
  | succ k ih =>
      rw [Function.iterate_succ_apply, ih (loop_step trig s), loop_step_halted]

theorem encode_decode_i32 (b0 b1 b2 b3 : Nat)
    (h0 : b0 < 256) (h1 : b1 < 256) (h2 : b2 < 256) (h3 : b3 < 256) :
    encode_i32 (decode_i32 b0 b1 b2 b3) = [b0, b1, b2, b3] := by
  unfold encode_i32 decode_i32
  by_cases hc : b0 + 256 * b1 + 65536 * b2 + 16777216 * b3 < 2147483648
  · rw [if_pos hc]
    simp only [List.cons.injEq, and_true]
    omega
  · rw [if_neg hc]
    simp only [List.cons.injEq, and_true]
    omega

/-- C9: decoding any 8-byte buffer into the packed HubData struct (little
endian topic_id then measurement, both i32) and re-encoding it reproduces
the original bytes exactly. -/
theorem C9_roundtrip (b : List Nat) (h8 : b.length = 8) (hb : ∀ x ∈ b, x < 256) :
    encode (read_unaligned b) = b := by
  match b, h8 with
  | [b0, b1, b2, b3, b4, b5, b6, b7], _ =>
    simp only [List.mem_cons, forall_eq_or_imp, List.not_mem_nil, false_implies,
      implies_true, and_true] at hb
    obtain ⟨k0, k1, k2, k3, k4, k5, k6, k7⟩ := hb
    show encode_i32 (decode_i32 b0 b1 b2 b3) ++ encode_i32 (decode_i32 b4 b5 b6 b7)
      = [b0, b1, b2, b3, b4, b5, b6, b7]
    rw [encode_decode_i32 b0 b1 b2 b3 k0 k1 k2 k3,
      encode_decode_i32 b4 b5 b6 b7 k4 k5 k6 k7]
    rfl

/-- Closed instance of C9 on the buffer encoding topic 1, measurement -1. -/
theorem C9_roundtrip_witness :
    encode (read_unaligned [1, 0, 0, 0, 255, 255, 255, 255])
      = [1, 0, 0, 0, 255, 255, 255, 255] :=
  C9_roundtrip [1, 0, 0, 0, 255, 255, 255, 255] (by decide) (by decide)

/-- C10: starting from all outputs low, every intermediate pin state reached
while dispatching a single message has at most one output high: the buzzer
pulse ends before an LED pulse starts and the off-branches only drive pins
low, so the buzzer and an LED are never simultaneously high. -/
theorem C10_at_most_one_high (topic_id measurement : Int) :
    ∀ q ∈ run_states Pins.initLow (dispatch topic_id measurement), highCount q ≤ 1 := by
  unfold dispatch
  split_ifs <;> decide

/-- Closed instance of C10: the state with only the buzzer high, reached while
dispatching topic 1 with measurement 60, has at most one output high. -/
theorem C10_at_most_one_high_witness :
    highCount ⟨false, false, true⟩ ≤ 1 :=
  C10_at_most_one_high 1 60 ⟨false, false, true⟩ (by decide)

end EspNowRx
